import Mathlib

/-!
# Verification of the spot–perp convergence-arbitrage paper trader

Shallow embedding of `src/spot–perp-convergence-arbitrage.py` over exact
rational arithmetic (`ℚ` in place of Python floats).  Python's two
transcendental numeric primitives (`pow(2.718281828, ·)` in the EMA update and
the square root inside `statistics.pstdev`) are taken as explicit function
parameters (`expPow`, `sqrtFn`) of the tick, since their float values have no
exact rational counterpart; no proved property depends on their values.

The module-level configuration constants of the script that feed the
simulated fills (fees, slippage, leverage, allocation fraction) are gathered
into a `Config` record whose default values are the script's constants, so
that properties quantified over fee levels (the fee-free round-trip
invariant) can be stated; all other constants are kept as plain definitions.
-/

namespace SpotPerp

/-! ## Configuration constants (script lines 21–58) -/

def START_USDT : ℚ := 100
def USDT_ALLOC_FRACTION : ℚ := 95/100
def SAFETY_BUFFER_PCT : ℚ := 5/100
def EXIT_BASIS_PCT : ℚ := 60/100
def EXIT_COMPRESSION_FRACTION : ℚ := 30/100
def SPOT_TAKER_FEE_PCT : ℚ := 10/100
def PERP_TAKER_FEE_PCT : ℚ := 55/1000
def SPOT_SLIPPAGE_BPS : ℚ := 2
def PERP_SLIPPAGE_BPS : ℚ := 2
def PERP_LEVERAGE : ℚ := 1
def MMR_EST_PCT : ℚ := 50/100
def TAKE_PROFIT_USDT : ℚ := 1
def STOP_LOSS_USDT : ℚ := 2
def MIN_BASIS_PCT : ℚ := 18/100
def MAX_HOLD_SECONDS : ℚ := 90
def MIN_FUNDING_ABS : ℚ := 5/1000
def TREND_SLOPE_MAX : ℚ := 8/10000
def ROLLING_STD_MULT : ℚ := 3/2
def BASIS_STD_WINDOW_SEC : ℚ := 120
def EMA_PERIOD_SEC : ℚ := 30
def ROLLING_PNL_TRADES : ℕ := 5

/-- One funding interval (8 hours) in milliseconds (spec §4.3 step 3). -/
def FUNDING_INTERVAL_MS : ℤ := 28800000

/-- Fee/slippage/leverage configuration: the script's module constants that
parameterize the simulated fills, as a record (spec §9 recommends exactly
this).  The default field values are the script's constants. -/
structure Config where
  spot_fee_pct : ℚ := SPOT_TAKER_FEE_PCT
  perp_fee_pct : ℚ := PERP_TAKER_FEE_PCT
  spot_slippage_bps : ℚ := SPOT_SLIPPAGE_BPS
  perp_slippage_bps : ℚ := PERP_SLIPPAGE_BPS
  leverage : ℚ := PERP_LEVERAGE
  alloc_fraction : ℚ := USDT_ALLOC_FRACTION
deriving DecidableEq

/-- The script's configuration. -/
def defaultCfg : Config := {}

/-- Fee-free, slippage-free configuration, used to state the fee-free
round-trip equity property. -/
def zeroCostCfg : Config :=
  { spot_fee_pct := 0, perp_fee_pct := 0,
    spot_slippage_bps := 0, perp_slippage_bps := 0,
    leverage := 1, alloc_fraction := USDT_ALLOC_FRACTION }

/-! ## Data structures (script lines 137–186) -/

/-- `LiveBook` (lines 137–148): last-known quote snapshot for one instrument.
`Option` models Python `None` ("absent"). -/
structure LiveBook where
  bid : Option ℚ := none
  ask : Option ℚ := none
  last : Option ℚ := none
  funding_rate : Option ℚ := none
  next_funding_ms : Option ℤ := none
deriving DecidableEq

/-- `LiveBook.mid` (lines 145–148): prefer `(bid+ask)/2` when both present,
else fall back to `last`. -/
def LiveBook.mid (b : LiveBook) : Option ℚ :=
  match b.bid, b.ask with
  | some bv, some av => some ((bv + av) / 2)
  | _, _ => b.last

/-- `PerpPos` (lines 151–166). -/
structure PerpPos where
  qty : ℚ := 0
  entry : ℚ := 0
  margin : ℚ := 0
  realized : ℚ := 0
deriving DecidableEq

/-- `PerpPos.open` (line 158–159): `abs(self.qty) > 1e-12`.  (Renamed: `open`
is a Lean keyword.) -/
def PerpPos.is_open (pos : PerpPos) : Bool :=
  decide ((1 : ℚ)/1000000000000 < |pos.qty|)

/-- `PerpPos.u_pnl` (lines 161–162). -/
def PerpPos.u_pnl (pos : PerpPos) (mark : ℚ) : ℚ :=
  pos.qty * (mark - pos.entry)

/-- `PerpPos.notional` (lines 164–165). -/
def PerpPos.notional (pos : PerpPos) (mark : ℚ) : ℚ :=
  |pos.qty| * mark

/-- The `last_action` strings of the script as an enumeration. -/
inductive LastAction
  | INIT
  | ENTER
  | EXIT
deriving DecidableEq

/-- `Account` (lines 168–177). -/
structure Account where
  usdt : ℚ := START_USDT
  base : ℚ := 0
  perp : PerpPos := {}
  fees : ℚ := 0
  funding : ℚ := 0
  trades : ℕ := 0
  last_action : LastAction := LastAction.INIT
  spot_margin : ℚ := 0
deriving DecidableEq

/-- `Account.equity` (lines 179–186): note it adds `perp.margin` but not
`spot_margin`. -/
def Account.equity (a : Account) (spot perp : ℚ) : ℚ :=
  a.usdt + a.base * spot + a.perp.realized + a.perp.u_pnl perp + a.perp.margin

/-! ## Fill model and risk gauges (script lines 192–211) -/

/-- `fee` (lines 205–206). -/
def fee (x pct : ℚ) : ℚ := x * pct / 100

/-- `bps_to_pct` (lines 89–90). -/
def bps_to_pct (bps : ℚ) : ℚ := bps / 100

/-- The `side` strings of `slip`. -/
inductive Side
  | buy
  | sell
deriving DecidableEq

/-- `slip` (lines 209–211): adverse slippage, price rises for a buy, falls
for a sell. -/
def slip (price bps : ℚ) (side : Side) : ℚ :=
  let pct := bps_to_pct bps / 100
  match side with
  | Side.buy => price * (1 + pct)
  | Side.sell => price * (1 - pct)

/-- `liq_price_short` (lines 199–202), with the leverage from the config. -/
def liq_price_short (cfg : Config) (entry : ℚ) : ℚ :=
  let imr := 1 / cfg.leverage
  let mmr := MMR_EST_PCT / 100
  entry * (1 + max (imr - mmr) 0)

/-- The symmetric long-side liquidation estimate, inlined at line 377 of the
script. -/
def liq_price_long (cfg : Config) (entry : ℚ) : ℚ :=
  entry * (1 - max (1 / cfg.leverage - MMR_EST_PCT / 100) 0)

/-! ## Decision functions (script lines 214–258) -/

/-- The two trade-direction strings. -/
inductive TradeDir
  | SHORT_PERP_LONG_SPOT
  | LONG_PERP_SHORT_SPOT
deriving DecidableEq

/-- `should_enter_trade` (lines 214–243).  `none` models `(False, reason)`,
`some dir` models `(True, trade_dir)`. -/
def should_enter_trade (basis_pct : ℚ) (funding_rate : Option ℚ)
    (fee_pct basis_std vwap_slope : ℚ) : Option TradeDir :=
  if TREND_SLOPE_MAX < |vwap_slope| then none
  else
    match funding_rate with
    | none => none
    | some f =>
      if |f| < MIN_FUNDING_ABS then none
      else
        let trade_dir :=
          if 0 < f then TradeDir.SHORT_PERP_LONG_SPOT
          else TradeDir.LONG_PERP_SHORT_SPOT
        let dynamic_min_basis :=
          max (max (2 * fee_pct) (basis_std * ROLLING_STD_MULT)) MIN_BASIS_PCT
        if |basis_pct| < dynamic_min_basis then none
        else if trade_dir = TradeDir.SHORT_PERP_LONG_SPOT ∧ basis_pct ≤ 0 then none
        else if trade_dir = TradeDir.LONG_PERP_SHORT_SPOT ∧ 0 ≤ basis_pct then none
        else some trade_dir

/-- The first branch of `should_exit_trade` (line 252): convergence with a
hardcoded `0.25` fraction. -/
def converged_check (basis_pct entry_basis : ℚ) : Bool :=
  decide (|basis_pct| < |entry_basis| * (25/100))

/-- The reason strings returned by `should_exit_trade`. -/
inductive ExitReason
  | CONVERGED
  | TIME_STOP
  | NO_EXIT
deriving DecidableEq

/-- `should_exit_trade` (lines 246–258). -/
def should_exit_trade (basis_pct entry_basis entry_time now_ts : ℚ) :
    Bool × ExitReason :=
  if converged_check basis_pct entry_basis then (true, ExitReason.CONVERGED)
  else if MAX_HOLD_SECONDS < now_ts - entry_time then (true, ExitReason.TIME_STOP)
  else (false, ExitReason.NO_EXIT)

/-- Python `a or b` on an optional float: `b` when `a` is `None` or `0.0`
(both are falsy), used at lines 373 and 378 of the script. -/
def or_default (x : Option ℚ) (d : ℚ) : ℚ :=
  match x with
  | none => d
  | some v => if v = 0 then d else v

/-- The exit threshold of line 373:
`max(EXIT_BASIS_PCT, (open_basis or 0.0) * EXIT_COMPRESSION_FRACTION)` —
note the signed `open_basis`, with no absolute value. -/
def exit_basis_threshold (open_basis : Option ℚ) : ℚ :=
  max EXIT_BASIS_PCT (or_default open_basis 0 * EXIT_COMPRESSION_FRACTION)

/-- The basis exit check of line 376:
`basis <= exit_basis if perp.qty < 0 else basis >= -exit_basis`. -/
def basis_hit (perp_qty basis_pct : ℚ) (open_basis : Option ℚ) : Bool :=
  let eb := exit_basis_threshold open_basis
  if perp_qty < 0 then decide (basis_pct ≤ eb) else decide (-eb ≤ basis_pct)

/-- The convergence condition exactly as claim C6 and spec §4.3.1(c) word it:
`|basis| ≤ max(staticExitBasis, |entryBasis| × compressionFraction)`.
Kept separate from the code-derived `basis_hit` so the two can be compared. -/
def convergence_exit_spec (basis_pct entry_basis : ℚ) : Prop :=
  |basis_pct| ≤ max EXIT_BASIS_PCT (|entry_basis| * EXIT_COMPRESSION_FRACTION)

/-- On feed disconnect (script line 305): `book.bid = book.ask = book.last =
None`.  `funding_rate` and `next_funding_ms` are not touched. -/
def disconnect_reset (b : LiveBook) : LiveBook :=
  { b with bid := none, ask := none, last := none }

/-! ## Loop-local state of `main` (script lines 317–328)

The UI-only variables (`max_pos_basis`, `dyn_entry`, `armed`, `last_ui`) are
omitted: nothing but `print` reads them. -/

structure LoopState where
  acct : Account := {}
  open_basis : Option ℚ := none
  start_eq : Option ℚ := none
  entry_time : Option ℚ := none
  trading_enabled : Bool := true
  ema_price : Option ℚ := none
  last_ema_ts : Option ℚ := none
  vwap_slope : ℚ := 0
  basis_history : List (ℚ × ℚ) := []
  rolling_pnl : List ℚ := []
deriving DecidableEq

/-! ## Signal pipeline (script lines 346–361) -/

/-- EMA update (lines 346–355).  `expPow` stands for the script's float
primitive `pow(2.718281828, ·)`; nothing proved depends on its values. -/
def ema_update (expPow : ℚ → ℚ) (st : LoopState) (s p now_ts : ℚ) : LoopState :=
  match st.ema_price with
  | none =>
    { st with ema_price := some ((s + p) / 2), last_ema_ts := some now_ts }
  | some prev_ema =>
    let dt := max (now_ts - st.last_ema_ts.getD 0) (1/1000000)
    let alpha := 1 - expPow (-dt / EMA_PERIOD_SEC)
    let new_ema := prev_ema + alpha * ((s + p) / 2 - prev_ema)
    { st with ema_price := some new_ema,
              vwap_slope := (new_ema - prev_ema) / dt,
              last_ema_ts := some now_ts }

/-- The eviction loop of lines 358–359: pop from the front while the front
sample is older than the window. -/
def evict_history (now_ts : ℚ) : List (ℚ × ℚ) → List (ℚ × ℚ)
  | [] => []
  | (t, b) :: rest =>
    if BASIS_STD_WINDOW_SEC < now_ts - t then evict_history now_ts rest
    else (t, b) :: rest

/-- Lines 357–359 as one step: append the fresh sample, then evict. -/
def record_and_evict (now_ts basis : ℚ) (hist : List (ℚ × ℚ)) :
    List (ℚ × ℚ) :=
  evict_history now_ts (hist ++ [(now_ts, basis)])

/-- Population variance, the square of `statistics.pstdev`. -/
def pvariance (xs : List ℚ) : ℚ :=
  if xs.length = 0 then 0
  else
    let m := xs.sum / xs.length
    (xs.map fun x => (x - m) ^ 2).sum / xs.length

/-- The square of the `basis_std` of line 361:
`pstdev(values) if len(values) > 1 else 0.0`.  The script's reported value is
the square root of this. -/
def basis_std_sq (xs : List ℚ) : ℚ :=
  if 1 < xs.length then pvariance xs else 0

/-- The square of the rolling volatility a tick reports, after recording the
fresh sample and evicting expired ones. -/
def tick_basis_std_sq (now_ts basis : ℚ) (hist : List (ℚ × ℚ)) : ℚ :=
  basis_std_sq ((record_and_evict now_ts basis hist).map Prod.snd)

/-- The trailing window as the spec words it: exactly those samples whose
timestamps lie inside the window. -/
def window_samples_spec (now_ts : ℚ) (samples : List (ℚ × ℚ)) :
    List (ℚ × ℚ) :=
  samples.filter fun smp => decide (now_ts - smp.1 ≤ BASIS_STD_WINDOW_SEC)

/-! ## Entry transition (script lines 490–607) -/

/-- The spot leg's side for each direction (line 490). -/
def entry_spot_side (dir : TradeDir) : Side :=
  match dir with
  | TradeDir.SHORT_PERP_LONG_SPOT => Side.buy
  | TradeDir.LONG_PERP_SHORT_SPOT => Side.sell

/-- The perp leg's side for each direction (line 491). -/
def entry_perp_side (dir : TradeDir) : Side :=
  match dir with
  | TradeDir.SHORT_PERP_LONG_SPOT => Side.sell
  | TradeDir.LONG_PERP_SHORT_SPOT => Side.buy

/-- `total_cash_needed` of lines 511–518 resp. 560–567: spot cost (resp.
posted spot margin) plus both taker fees plus perp margin. -/
def entry_total_cash_needed (cfg : Config) (dir : TradeDir)
    (base_qty spot_fill perp_fill : ℚ) : ℚ :=
  match dir with
  | TradeDir.SHORT_PERP_LONG_SPOT =>
    let spot_cost := base_qty * spot_fill
    let spot_fee := fee spot_cost cfg.spot_fee_pct
    let perp_notional := base_qty * perp_fill
    let perp_fee := fee perp_notional cfg.perp_fee_pct
    let perp_margin := perp_notional / cfg.leverage
    spot_cost + spot_fee + perp_fee + perp_margin
  | TradeDir.LONG_PERP_SHORT_SPOT =>
    let spot_margin_required := base_qty * spot_fill
    let spot_fee := fee spot_margin_required cfg.spot_fee_pct
    let perp_notional := base_qty * perp_fill
    let perp_fee := fee perp_notional cfg.perp_fee_pct
    let perp_margin := perp_notional / cfg.leverage
    spot_margin_required + spot_fee + perp_fee + perp_margin

/-- The ledger mutation of the accepted entry (lines 525–537 resp. 574–586).
Note the script mutates `perp.qty/entry/margin` in place, keeping
`perp.realized`. -/
def book_entry (cfg : Config) (acct : Account) (dir : TradeDir)
    (base_qty spot_fill perp_fill : ℚ) : Account :=
  match dir with
  | TradeDir.SHORT_PERP_LONG_SPOT =>
    let spot_cost := base_qty * spot_fill
    let spot_fee := fee spot_cost cfg.spot_fee_pct
    let perp_notional := base_qty * perp_fill
    let perp_fee := fee perp_notional cfg.perp_fee_pct
    let perp_margin := perp_notional / cfg.leverage
    { acct with
      usdt := acct.usdt - (spot_cost + spot_fee + perp_fee + perp_margin)
      base := acct.base + base_qty
      perp := { acct.perp with qty := -base_qty, entry := perp_fill,
                               margin := perp_margin }
      spot_margin := 0
      fees := acct.fees + spot_fee + perp_fee
      trades := acct.trades + 1
      last_action := LastAction.ENTER }
  | TradeDir.LONG_PERP_SHORT_SPOT =>
    let spot_margin_required := base_qty * spot_fill
    let spot_fee := fee spot_margin_required cfg.spot_fee_pct
    let perp_notional := base_qty * perp_fill
    let perp_fee := fee perp_notional cfg.perp_fee_pct
    let perp_margin := perp_notional / cfg.leverage
    { acct with
      usdt := acct.usdt - (spot_margin_required + spot_fee + perp_fee + perp_margin)
      base := acct.base - base_qty
      perp := { acct.perp with qty := base_qty, entry := perp_fill,
                               margin := perp_margin }
      spot_margin := spot_margin_required
      fees := acct.fees + spot_fee + perp_fee
      trades := acct.trades + 1
      last_action := LastAction.ENTER }

/-- The guarded booking of a sized entry (lines 518–523 and 567–572): if
`total_cash_needed > acct.usdt` the attempt is rejected and nothing changes;
otherwise the entry is booked and `open_basis` / `entry_time` recorded. -/
def sized_entry (cfg : Config) (st : LoopState) (dir : TradeDir)
    (base_qty spot_fill perp_fill basis now_ts : ℚ) : LoopState :=
  if st.acct.usdt < entry_total_cash_needed cfg dir base_qty spot_fill perp_fill
  then st
  else
    { st with acct := book_entry cfg st.acct dir base_qty spot_fill perp_fill,
              open_basis := some basis,
              entry_time := some now_ts }

/-- The whole entry attempt once a direction is chosen (lines 490–607):
fills, sizing against available cash, then the guarded booking. -/
def attempt_entry (cfg : Config) (st : LoopState) (s p basis now_ts : ℚ)
    (dir : TradeDir) : LoopState :=
  let spot_fill := slip s cfg.spot_slippage_bps (entry_spot_side dir)
  let perp_fill := slip p cfg.perp_slippage_bps (entry_perp_side dir)
  let usdt_alloc := st.acct.usdt * cfg.alloc_fraction
  if usdt_alloc ≤ 0 then st
  else
    let base_cost := spot_fill * (1 + cfg.spot_fee_pct / 100)
    let perp_cost := perp_fill * (cfg.perp_fee_pct / 100 + 1 / cfg.leverage)
    let cost_per_unit := base_cost + perp_cost
    let max_affordable_qty :=
      if 0 < cost_per_unit then st.acct.usdt / cost_per_unit else 0
    let target_qty := min (usdt_alloc / spot_fill) max_affordable_qty
    if target_qty ≤ 0 then st
    else sized_entry cfg st dir target_qty spot_fill perp_fill basis now_ts

/-! ## Exit transition (script lines 388–436) -/

/-- The full-close ledger mutation (lines 390–436), both directions.  The
script's transient `acct.perp.realized += perp_realized` is immediately
discarded by `acct.perp = PerpPos()`; the realized amount reaches cash. -/
def close_position (cfg : Config) (acct : Account) (s p : ℚ) : Account :=
  if acct.perp.qty < 0 then
    let spot_exit := slip s cfg.spot_slippage_bps Side.sell
    let perp_exit := slip p cfg.perp_slippage_bps Side.buy
    let spot_proceeds := acct.base * spot_exit
    let spot_fee := fee spot_proceeds cfg.spot_fee_pct
    let perp_notional := |acct.perp.qty| * perp_exit
    let perp_fee := fee perp_notional cfg.perp_fee_pct
    let perp_realized := acct.perp.qty * (perp_exit - acct.perp.entry)
    { acct with
      fees := acct.fees + spot_fee + perp_fee
      usdt := acct.usdt + spot_proceeds - spot_fee + perp_realized
                + acct.perp.margin - perp_fee
      base := 0
      perp := {}
      spot_margin := 0
      trades := acct.trades + 1
      last_action := LastAction.EXIT }
  else
    let spot_exit := slip s cfg.spot_slippage_bps Side.buy
    let perp_exit := slip p cfg.perp_slippage_bps Side.sell
    let exit_qty := |acct.base|
    let spot_cost := exit_qty * spot_exit
    let spot_fee := fee spot_cost cfg.spot_fee_pct
    let perp_notional := |acct.perp.qty| * perp_exit
    let perp_fee := fee perp_notional cfg.perp_fee_pct
    let perp_realized := acct.perp.qty * (perp_exit - acct.perp.entry)
    { acct with
      fees := acct.fees + spot_fee + perp_fee
      usdt := acct.usdt + acct.spot_margin - spot_cost - spot_fee
                + perp_realized + acct.perp.margin - perp_fee
      base := 0
      perp := {}
      spot_margin := 0
      trades := acct.trades + 1
      last_action := LastAction.EXIT }

/-! ## Kill switch (script lines 454–459 and 485–486) -/

/-- Lines 454–456: append the closed trade's PnL, dropping the oldest entry
once the window exceeds `ROLLING_PNL_TRADES`. -/
def push_rolling_pnl (w : List ℚ) (x : ℚ) : List ℚ :=
  let w2 := w ++ [x]
  if ROLLING_PNL_TRADES < w2.length then w2.drop 1 else w2

/-- Lines 457–459: `trading_enabled` is cleared when the rolling sum is
negative; there is no statement anywhere that sets it back. -/
def kill_switch_update (trading_enabled : Bool) (w : List ℚ) : Bool :=
  if w.sum < 0 then false else trading_enabled

/-! ## The per-tick decision step (script lines 367–607) -/

/-- The open-position branch (lines 367–468): evaluate every exit trigger,
and on any trigger close the position, push the trade's PnL into the rolling
window and update the kill switch. -/
def open_position_tick (cfg : Config) (st : LoopState) (s p basis now_ts : ℚ) :
    LoopState :=
  let liq := liq_price_short cfg st.acct.perp.entry
  let eq := st.acct.equity s p
  let pnl := eq - st.start_eq.getD 0
  let tp_hit := TAKE_PROFIT_USDT ≤ pnl
  let sl_hit := pnl ≤ -STOP_LOSS_USDT
  let b_hit := basis_hit st.acct.perp.qty basis st.open_basis
  let liq_hit :=
    if st.acct.perp.qty < 0 then liq ≤ p
    else p ≤ liq_price_long cfg st.acct.perp.entry
  let se := should_exit_trade basis (or_default st.open_basis basis)
              (or_default st.entry_time now_ts) now_ts
  if tp_hit ∨ sl_hit ∨ b_hit = true ∨ liq_hit ∨ se.1 = true then
    let acct2 := close_position cfg st.acct s p
    let rp := push_rolling_pnl st.rolling_pnl pnl
    { st with acct := acct2,
              rolling_pnl := rp,
              trading_enabled := kill_switch_update st.trading_enabled rp,
              open_basis := none,
              entry_time := none,
              start_eq := some (acct2.equity s p) }
  else st

/-- The flat branch (lines 469–607): reset `start_eq`, ask
`should_enter_trade` (the funding rate is converted to percent at the call,
line 473), and attempt the entry unless the kill switch is engaged. -/
def flat_tick (cfg : Config) (st : LoopState)
    (s p basis basis_std now_ts : ℚ) (perp_funding_rate : Option ℚ) :
    LoopState :=
  let st1 := { st with start_eq := some (st.acct.equity s p) }
  let fee_pct := 2 * (cfg.spot_fee_pct + cfg.perp_fee_pct)
  let can := should_enter_trade basis (perp_funding_rate.map fun f => f * 100)
               fee_pct basis_std st1.vwap_slope
  if st1.trading_enabled = false then st1
  else
    match can with
    | none => st1
    | some dir => attempt_entry cfg st1 s p basis now_ts dir

/-- One pass of the guarded tick body (lines 339–607).  `sqrtFn` stands for
the square root inside `statistics.pstdev`, like `expPow` for the EMA's
exponential. -/
def tick_body (cfg : Config) (expPow sqrtFn : ℚ → ℚ) (st : LoopState)
    (s p : ℚ) (perp_funding_rate : Option ℚ) (now_ts : ℚ) : LoopState :=
  let st1 := if st.start_eq = none
             then { st with start_eq := some (st.acct.equity s p) } else st
  let basis := (p - s) / s * 100
  let st2 := ema_update expPow st1 s p now_ts
  let hist := record_and_evict now_ts basis st2.basis_history
  let st3 := { st2 with basis_history := hist }
  let vals := hist.map Prod.snd
  let basis_std := if 1 < vals.length then sqrtFn (pvariance vals) else 0
  if st3.acct.perp.is_open then open_position_tick cfg st3 s p basis now_ts
  else flat_tick cfg st3 s p basis basis_std now_ts perp_funding_rate

/-- The `if s and p:` guard of line 338: a Python float is truthy exactly
when it is present and nonzero, so a missing mid and a mid equal to `0.0`
both skip the tick body. -/
def tick_guard (s p : Option ℚ) : Bool :=
  match s, p with
  | some sv, some pv => decide (sv ≠ 0) && decide (pv ≠ 0)
  | _, _ => false

/-- One iteration of the trading loop (lines 335–607), UI rendering
omitted. -/
def tick (cfg : Config) (expPow sqrtFn : ℚ → ℚ)
    (spot_book perp_book : LiveBook) (st : LoopState) (now_ts : ℚ) :
    LoopState :=
  if tick_guard spot_book.mid perp_book.mid then
    tick_body cfg expPow sqrtFn st (spot_book.mid.getD 0)
      (perp_book.mid.getD 0) perp_book.funding_rate now_ts
  else st

/-! ## Funding settlement (modelled from the spec) -/

/-- Modelled from the spec: funding settlement is absent from the source file
(`Account.funding` is declared at line 174 and `next_funding_ms` is collected
from the feed at lines 298–302, but no statement of `main` ever settles
funding).  This follows spec §4.3 step 3 verbatim: once wall-clock time
passes the due-time while a position is open, apply
`payment = notional(mark) × fundingRate × sign` (a short perp holder receives
positive funding, a long perp holder is the mirror image), credit cash,
accumulate into `fundingNet`, and advance the due-time by exactly one 8-hour
interval.  Returns the updated account and the new due-time. -/
def settle_funding (acct : Account) (mark funding_rate : ℚ)
    (now_ms due_ms : ℤ) : Account × ℤ :=
  if acct.perp.is_open = true ∧ due_ms ≤ now_ms then
    let sign : ℚ := if acct.perp.qty < 0 then 1 else -1
    let payment := acct.perp.notional mark * funding_rate * sign
    ({ acct with usdt := acct.usdt + payment,
                 funding := acct.funding + payment },
     due_ms + FUNDING_INTERVAL_MS)
  else (acct, due_ms)

/-- A short-perp account with notional 1000 at mark 1000, used for the
funding-settlement example of spec §8. -/
def acct_short_1000 : Account :=
  { usdt := 100, perp := { qty := -1, entry := 1000 } }

/-- A fully-populated quote snapshot, used to inspect what a disconnect
reset leaves behind. -/
def populated_book : LiveBook :=
  { bid := some 1, ask := some 2, last := some 3,
    funding_rate := some (1/10000), next_funding_ms := some 100 }

/-! # Theorems -/

/-- Helper: when the sample list is sorted by timestamp, the front-eviction
loop removes exactly the samples older than the trailing window. -/
theorem evict_eq_filter (now_ts : ℚ) :
    ∀ l : List (ℚ × ℚ), l.Pairwise (fun a b => a.1 ≤ b.1) →
      evict_history now_ts l
        = l.filter fun smp => decide (now_ts - smp.1 ≤ BASIS_STD_WINDOW_SEC) := by
  intro l
  induction l with
  | nil => intro _; rfl
  | cons hd tl ih =>
    intro hp
    obtain ⟨t, b⟩ := hd
    obtain ⟨hhd, htl⟩ := List.pairwise_cons.mp hp
    by_cases hexp : BASIS_STD_WINDOW_SEC < now_ts - t
    · have hnot : ¬ (now_ts - t ≤ BASIS_STD_WINDOW_SEC) := not_le.mpr hexp
      simp only [evict_history, if_pos hexp, List.filter_cons,
        decide_eq_true_eq, hnot, if_false]
      exact ih htl
    · have hin : now_ts - t ≤ BASIS_STD_WINDOW_SEC := not_lt.mp hexp
      have hall : ∀ smp ∈ tl,
          (fun x : ℚ × ℚ => decide (now_ts - x.1 ≤ BASIS_STD_WINDOW_SEC)) smp
            = true := by
        intro smp hmem
        have ht : t ≤ smp.1 := hhd smp hmem
        have : now_ts - smp.1 ≤ now_ts - t := by linarith
        simpa using le_trans this hin
      simp only [evict_history, if_neg hexp, List.filter_cons,
        decide_eq_true_eq, hin, if_true]
      rw [List.filter_eq_self.mpr hall]

/-- C1: with zero fees, zero slippage and no funding, a round-trip
ENTER+EXIT at unchanged prices must leave equity exactly unchanged in both
directions.  The code satisfies this for SHORT_PERP_LONG_SPOT but violates
it for LONG_PERP_SHORT_SPOT: starting from the fresh account (equity 100) at
spot = perp = 100, the round trip ends with equity 50 — the simulated short
sale's proceeds are never credited to cash (entry debits the posted spot
margin, exit refunds the margin but pays the full buy-back cost), so half
the allocation evaporates with zero trading costs. -/
theorem C1_round_trip_equity_eval :
    Account.equity ({} : Account) 100 100 = 100 ∧
    Account.equity (close_position zeroCostCfg
        (attempt_entry zeroCostCfg {} 100 100 0 0
          TradeDir.SHORT_PERP_LONG_SPOT).acct 100 100) 100 100 = 100 ∧
    Account.equity (close_position zeroCostCfg
        (attempt_entry zeroCostCfg {} 100 100 0 0
          TradeDir.LONG_PERP_SHORT_SPOT).acct 100 100) 100 100 = 50 := by
  refine ⟨by norm_num [Account.equity, PerpPos.u_pnl, START_USDT], ?_, ?_⟩ <;>
    norm_num [Account.equity, PerpPos.u_pnl, START_USDT, attempt_entry,
      sized_entry, book_entry, close_position, entry_total_cash_needed, fee,
      slip, bps_to_pct, entry_spot_side, entry_perp_side, zeroCostCfg,
      USDT_ALLOC_FRACTION, abs_of_nonneg, abs_of_nonpos]

/-- C2 (counterexample): the claim says the kill switch is cleared as soon
as later closed trades restore the rolling sum to ≥ 0.  Concretely: a close
with PnL −1 trips the switch; a following close with PnL +5 brings the
rolling sum to 4 ≥ 0, yet `trading_enabled` remains `false` — nothing in the
script ever sets it back to `true`. -/
theorem C2_kill_switch_not_cleared_cex :
    (0:ℚ) ≤ (push_rolling_pnl (push_rolling_pnl [] (-1)) 5).sum ∧
    kill_switch_update (kill_switch_update true (push_rolling_pnl [] (-1)))
        (push_rolling_pnl (push_rolling_pnl [] (-1)) 5) = false := by
  norm_num [push_rolling_pnl, kill_switch_update, ROLLING_PNL_TRADES]

/-- C2 (amended): the kill switch is set on a close that makes the rolling
sum negative, it blocks every entry attempt while engaged (a flat tick with
`trading_enabled = false` only resets `start_eq` and books nothing), and it
is latched: once `false`, `trading_enabled` stays `false` after every later
close, regardless of the rolling sum. -/
theorem C2_kill_switch_latched :
    ∀ (te : Bool) (w : List ℚ) (x : ℚ) (cfg : Config) (st : LoopState)
      (s p basis basis_std now_ts : ℚ) (fr : Option ℚ),
      ((push_rolling_pnl w x).sum < 0 →
        kill_switch_update te (push_rolling_pnl w x) = false) ∧
      (te = false → kill_switch_update te w = false) ∧
      (st.trading_enabled = false →
        flat_tick cfg st s p basis basis_std now_ts fr
          = { st with start_eq := some (st.acct.equity s p) }) := by
  intro te w x cfg st s p basis basis_std now_ts fr
  refine ⟨?_, ?_, ?_⟩
  · intro h
    simp [kill_switch_update, h]
  · intro h
    simp [kill_switch_update, h]
  · intro h
    simp [flat_tick, h]

/-- C3 (modelled from the spec; the source file contains no funding
settlement): while a position is open and the due-time has passed but the
next 8-hour interval has not, settlement applies
`payment = notional(mark) × fundingRate × sign` to cash (sign +1 for a short
perp holder, −1 for a long one), accumulates it into the account's funding
total, advances the due-time by exactly 8 hours, and a second invocation at
the same wall-clock time is a no-op. -/
theorem C3_funding_settlement
    (acct : Account) (mark funding_rate : ℚ) (now_ms due_ms : ℤ)
    (h_open : acct.perp.is_open = true)
    (h_due : due_ms ≤ now_ms)
    (h_fresh : now_ms < due_ms + FUNDING_INTERVAL_MS) :
    (settle_funding acct mark funding_rate now_ms due_ms).1.usdt
        = acct.usdt + acct.perp.notional mark * funding_rate *
            (if acct.perp.qty < 0 then 1 else -1) ∧
    (settle_funding acct mark funding_rate now_ms due_ms).1.funding
        = acct.funding + acct.perp.notional mark * funding_rate *
            (if acct.perp.qty < 0 then 1 else -1) ∧
    (settle_funding acct mark funding_rate now_ms due_ms).2
        = due_ms + FUNDING_INTERVAL_MS ∧
    settle_funding (settle_funding acct mark funding_rate now_ms due_ms).1
        mark funding_rate now_ms
        (settle_funding acct mark funding_rate now_ms due_ms).2
      = ((settle_funding acct mark funding_rate now_ms due_ms).1,
         (settle_funding acct mark funding_rate now_ms due_ms).2) := by
  have hcond : acct.perp.is_open = true ∧ due_ms ≤ now_ms := ⟨h_open, h_due⟩
  have h1 : settle_funding acct mark funding_rate now_ms due_ms
      = ({ acct with
            usdt := acct.usdt + acct.perp.notional mark * funding_rate *
              (if acct.perp.qty < 0 then 1 else -1),
            funding := acct.funding + acct.perp.notional mark * funding_rate *
              (if acct.perp.qty < 0 then 1 else -1) },
         due_ms + FUNDING_INTERVAL_MS) := by
    simp [settle_funding, hcond]
  refine ⟨by rw [h1], by rw [h1], by rw [h1], ?_⟩
  rw [h1]
  have hnot : ¬ (due_ms + FUNDING_INTERVAL_MS ≤ now_ms) := not_le.mpr h_fresh
  simp [settle_funding, hnot]

/-- C3 witness: a short position of quantity 1 at mark 1000 (notional 1000)
with funding rate +0.0001 is credited exactly +0.10, and the due-time
advances by 8 hours. -/
theorem C3_witness :
    (settle_funding acct_short_1000 1000 (1/10000) 0 0).1.usdt = 1001/10 ∧
    (settle_funding acct_short_1000 1000 (1/10000) 0 0).2 = 28800000 := by
  have h := C3_funding_settlement acct_short_1000 1000 (1/10000) 0 0
    (by norm_num [acct_short_1000, PerpPos.is_open]) (by decide)
    (by decide)
  refine ⟨?_, ?_⟩
  · rw [h.1]
    norm_num [acct_short_1000, PerpPos.notional, abs_of_nonpos]
  · rw [h.2.2.1]
    decide

/-- C4: a sized entry attempt in either direction whose total cash
requirement (spot cost or spot margin, plus both fees, plus perp margin)
exceeds available cash is rejected with the whole loop state — account
ledger included — exactly unchanged, and whenever an entry is booked the
required cash did not exceed available cash. -/
theorem C4_insufficient_cash_rejected :
    ∀ (cfg : Config) (st : LoopState) (dir : TradeDir)
      (base_qty spot_fill perp_fill basis now_ts : ℚ),
      (st.acct.usdt < entry_total_cash_needed cfg dir base_qty spot_fill perp_fill →
        sized_entry cfg st dir base_qty spot_fill perp_fill basis now_ts = st) ∧
      (sized_entry cfg st dir base_qty spot_fill perp_fill basis now_ts ≠ st →
        entry_total_cash_needed cfg dir base_qty spot_fill perp_fill ≤ st.acct.usdt) := by
  intro cfg st dir base_qty spot_fill perp_fill basis now_ts
  constructor
  · intro h
    simp [sized_entry, h]
  · intro hne
    by_contra hgt
    push_neg at hgt
    exact hne (by simp [sized_entry, hgt])

/-- C5: `should_enter_trade` answers with a direction exactly when the trend
filter passes (`|slope| ≤ trendSlopeMax`), the funding rate is present with
`|funding| ≥ MIN_FUNDING_ABS`, the basis magnitude reaches the dynamic
minimum `max(2·feePct, basisStd·stdMult, staticMinBasis)`, and the basis
sign agrees with the funding-implied direction — positive funding and
positive basis give SHORT_PERP_LONG_SPOT, negative funding and negative
basis give LONG_PERP_SHORT_SPOT, and a sign mismatch blocks the trade
rather than flipping it. -/
theorem C5_entry_conditions :
    ∀ (basis_pct : ℚ) (funding_rate : Option ℚ)
      (fee_pct basis_std vwap_slope : ℚ) (dir : TradeDir),
      should_enter_trade basis_pct funding_rate fee_pct basis_std vwap_slope
          = some dir
        ↔ |vwap_slope| ≤ TREND_SLOPE_MAX ∧
          ∃ f, funding_rate = some f ∧ MIN_FUNDING_ABS ≤ |f| ∧
            max (max (2 * fee_pct) (basis_std * ROLLING_STD_MULT)) MIN_BASIS_PCT
              ≤ |basis_pct| ∧
            ((dir = TradeDir.SHORT_PERP_LONG_SPOT ∧ 0 < f ∧ 0 < basis_pct) ∨
             (dir = TradeDir.LONG_PERP_SHORT_SPOT ∧ f < 0 ∧ basis_pct < 0)) := by
  intro b fr fee_pct bstd slope dir
  unfold should_enter_trade
  by_cases hs : TREND_SLOPE_MAX < |slope|
  · simp [hs, not_le.mpr hs]
  · have hsle := not_lt.mp hs
    rw [if_neg hs]
    cases fr with
    | none => simp [hsle]
    | some f =>
      by_cases hf : |f| < MIN_FUNDING_ABS
      · simp [hf, not_le.mpr hf, hsle]
      · have hfle := not_lt.mp hf
        by_cases hb : |b| < max (max (2 * fee_pct) (bstd * ROLLING_STD_MULT)) MIN_BASIS_PCT
        · simp [hb, not_le.mpr hb, hsle, hfle]
        · have hble := not_lt.mp hb
          simp only [sup_le_iff] at hble
          by_cases hfpos : 0 < f
          · have hfnneg : ¬ f < 0 := lt_asymm hfpos
            by_cases hb0 : b ≤ 0
            · simp [hfpos, hb0, hsle, hfle, hble, not_lt.mpr hb0, hfnneg]
            · simp [hfpos, hb0, hsle, hfle, hble, not_le.mp hb0, hfnneg, eq_comm]
          · have hfnpos := not_lt.mp hfpos
            have hfne : f ≠ 0 := by
              intro h0
              rw [h0] at hfle
              norm_num [MIN_FUNDING_ABS] at hfle
            have hfneg : f < 0 := lt_of_le_of_ne hfnpos hfne
            by_cases hb0 : 0 ≤ b
            · simp [hfpos, hb0, hsle, hfle, hble, not_lt.mpr hb0, hfneg]
            · simp [hfpos, hb0, hsle, hfle, hble, not_le.mp hb0, hfneg, eq_comm]

/-- C6 (counterexample): the claim says the convergence exit triggers
exactly when `|basis| ≤ max(staticExitBasis, |entryBasis|·compression)`.
For a short-perp position entered at basis +1.0, at basis −0.7 the code's
one-sided check fires (−0.7 ≤ 0.6) while the claim's formula does not
(0.7 > 0.6 = max(0.6, 0.3)). -/
theorem C6_convergence_exit_cex :
    basis_hit (-1) (-7/10) (some 1) = true ∧
    ¬ convergence_exit_spec (-7/10) 1 := by
  constructor
  · norm_num [basis_hit, exit_basis_threshold, or_default,
      EXIT_BASIS_PCT, EXIT_COMPRESSION_FRACTION]
  · norm_num [convergence_exit_spec, EXIT_BASIS_PCT, EXIT_COMPRESSION_FRACTION,
      abs_of_nonpos, abs_of_nonneg]

/-- C6 (amended): the basis exit check is one-sided with the signed entry
basis: a short-perp position exits when
`basis ≤ max(staticExitBasis, entryBasis·compression)` and a long-perp
position when `basis ≥ −that`; a non-positive entry basis contributes
nothing to the threshold (no absolute value is taken); and the separate
`should_exit_trade` convergence check compares `|basis| < 0.25·|entryBasis|`
with a hardcoded fraction 0.25 that differs from the configured compression
fraction 0.30. -/
theorem C6_convergence_one_sided :
    ∀ (qty basis ob : ℚ),
      (qty < 0 →
        (basis_hit qty basis (some ob) = true ↔
          basis ≤ max EXIT_BASIS_PCT (ob * EXIT_COMPRESSION_FRACTION))) ∧
      (¬ qty < 0 →
        (basis_hit qty basis (some ob) = true ↔
          -(max EXIT_BASIS_PCT (ob * EXIT_COMPRESSION_FRACTION)) ≤ basis)) ∧
      (ob ≤ 0 → exit_basis_threshold (some ob) = EXIT_BASIS_PCT) ∧
      (converged_check basis ob = true ↔ |basis| < |ob| * (25/100)) ∧
      (25/100 : ℚ) ≠ EXIT_COMPRESSION_FRACTION := by
  intro qty basis ob
  have hod : or_default (some ob) 0 = ob := by
    by_cases h : ob = 0 <;> simp [or_default, h]
  refine ⟨?_, ?_, ?_, ?_, ?_⟩
  · intro h
    simp [basis_hit, exit_basis_threshold, hod, h]
  · intro h
    simp [basis_hit, exit_basis_threshold, hod, h]
  · intro h
    have hcle : ob * EXIT_COMPRESSION_FRACTION ≤ EXIT_BASIS_PCT := by
      have h0 : ob * EXIT_COMPRESSION_FRACTION ≤ 0 := by
        have hm := mul_le_mul_of_nonneg_right h
          (show (0:ℚ) ≤ EXIT_COMPRESSION_FRACTION by
            norm_num [EXIT_COMPRESSION_FRACTION])
        simpa using hm
      exact le_trans h0 (by norm_num [EXIT_BASIS_PCT])
    simp [exit_basis_threshold, hod, max_eq_left hcle]
  · simp [converged_check]
  · norm_num [EXIT_COMPRESSION_FRACTION]

/-- C7 (counterexample): the claim says a disconnect resets the snapshot so
that every field is absent, leaving the startup state.  After a disconnect
of a fully-populated book the funding rate is still present, so the book
differs from the startup ("all unknown") state. -/
theorem C7_disconnect_cex :
    (disconnect_reset populated_book).funding_rate = some (1/10000) ∧
    disconnect_reset populated_book ≠ ({} : LiveBook) := by
  constructor
  · rfl
  · intro h
    have hfr := congrArg LiveBook.funding_rate h
    simp [disconnect_reset, populated_book] at hfr

/-- C7 (amended): a disconnect clears `bid`, `ask` and `last` (so `mid`
becomes absent and no stale price can be acted on), but `funding_rate` and
`next_funding_ms` retain their pre-disconnect values. -/
theorem C7_disconnect_reset_fields :
    ∀ b : LiveBook,
      (disconnect_reset b).bid = none ∧
      (disconnect_reset b).ask = none ∧
      (disconnect_reset b).last = none ∧
      (disconnect_reset b).funding_rate = b.funding_rate ∧
      (disconnect_reset b).next_funding_ms = b.next_funding_ms ∧
      (disconnect_reset b).mid = none := by
  intro b
  exact ⟨rfl, rfl, rfl, rfl, rfl, rfl⟩

/-- C8: on a tick with time-ordered samples, the record-and-evict step keeps
exactly the samples whose timestamps lie inside the trailing window (FIFO
eviction by time), the reported variance (the square of the reported
population standard deviation) is that of exactly those samples, and it is
zero when fewer than two samples remain. -/
theorem C8_rolling_std_window
    (now_ts basis : ℚ) (hist : List (ℚ × ℚ))
    (h_sorted : (hist ++ [(now_ts, basis)]).Pairwise (fun a b => a.1 ≤ b.1)) :
    record_and_evict now_ts basis hist
        = window_samples_spec now_ts (hist ++ [(now_ts, basis)]) ∧
    tick_basis_std_sq now_ts basis hist
        = basis_std_sq
            ((window_samples_spec now_ts (hist ++ [(now_ts, basis)])).map Prod.snd) ∧
    ((window_samples_spec now_ts (hist ++ [(now_ts, basis)])).length < 2 →
      tick_basis_std_sq now_ts basis hist = 0) ∧
    Real.sqrt (tick_basis_std_sq now_ts basis hist)
        = Real.sqrt (basis_std_sq
            ((window_samples_spec now_ts (hist ++ [(now_ts, basis)])).map Prod.snd)) := by
  have h1 : record_and_evict now_ts basis hist
      = window_samples_spec now_ts (hist ++ [(now_ts, basis)]) :=
    evict_eq_filter now_ts _ h_sorted
  have h2 : tick_basis_std_sq now_ts basis hist
      = basis_std_sq
          ((window_samples_spec now_ts (hist ++ [(now_ts, basis)])).map Prod.snd) := by
    unfold tick_basis_std_sq
    rw [h1]
  refine ⟨h1, h2, ?_, by rw [h2]⟩
  intro hlen
  rw [h2]
  unfold basis_std_sq
  rw [if_neg]
  rw [List.length_map]
  omega

/-- C8 witness: three samples at times 0, 60, 130 with a 120-second window —
the sample at time 0 is evicted and exactly the in-window samples remain. -/
theorem C8_witness :
    (([((0:ℚ), (1/10:ℚ)), (60, 3/10)] ++ [((130:ℚ), (1/5:ℚ))]).Pairwise
        (fun a b => a.1 ≤ b.1)) ∧
    record_and_evict 130 (1/5) [(0, 1/10), (60, 3/10)]
      = window_samples_spec 130 ([(0, 1/10), (60, 3/10)] ++ [(130, 1/5)]) := by
  have hp : (([((0:ℚ), (1/10:ℚ)), (60, 3/10)] ++ [((130:ℚ), (1/5:ℚ))]).Pairwise
      (fun a b : ℚ × ℚ => a.1 ≤ b.1)) := by
    norm_num [List.pairwise_cons]
  exact ⟨hp, (C8_rolling_std_window 130 (1/5) [(0, 1/10), (60, 3/10)] hp).1⟩

/-- C9: pushing a closed trade's PnL into the rolling window appends it at
the end, keeps exactly the most recent values (the oldest is dropped once
the window would exceed `ROLLING_PNL_TRADES`), and never lets the length
exceed `ROLLING_PNL_TRADES`. -/
theorem C9_rolling_pnl_window (w : List ℚ) (x : ℚ)
    (h : w.length ≤ ROLLING_PNL_TRADES) :
    push_rolling_pnl w x = (w ++ [x]).drop (w.length + 1 - ROLLING_PNL_TRADES) ∧
    (push_rolling_pnl w x).length ≤ ROLLING_PNL_TRADES ∧
    (push_rolling_pnl w x).getLast? = some x := by
  have hlen1 : (w ++ [x]).length = w.length + 1 := by simp
  by_cases hlen : ROLLING_PNL_TRADES < (w ++ [x]).length
  · have hw : w.length = ROLLING_PNL_TRADES := by omega
    have h1le : 1 ≤ w.length := by
      rw [hw]; decide
    have hpush : push_rolling_pnl w x = (w ++ [x]).drop 1 := by
      simp only [push_rolling_pnl]
      rw [if_pos hlen]
    have hdw : w.length + 1 - ROLLING_PNL_TRADES = 1 := by omega
    refine ⟨by rw [hpush, hdw], ?_, ?_⟩
    · rw [hpush, List.length_drop, hlen1]
      omega
    · rw [hpush, List.drop_append_of_le_length h1le, List.getLast?_concat]
  · have hpush : push_rolling_pnl w x = w ++ [x] := by
      simp only [push_rolling_pnl]
      rw [if_neg hlen]
    have hdw : w.length + 1 - ROLLING_PNL_TRADES = 0 := by omega
    refine ⟨by rw [hpush, hdw, List.drop_zero], ?_,
      by rw [hpush, List.getLast?_concat]⟩
    rw [hpush, hlen1]
    omega

/-- C9 witness: a full window of five values drops the oldest on push. -/
theorem C9_witness :
    (([(1:ℚ), 2, 3, 4, 5]).length ≤ ROLLING_PNL_TRADES) ∧
    push_rolling_pnl [1, 2, 3, 4, 5] 6
      = ([(1:ℚ), 2, 3, 4, 5] ++ [6]).drop
          (([(1:ℚ), 2, 3, 4, 5]).length + 1 - ROLLING_PNL_TRADES) := by
  refine ⟨by decide, ?_⟩
  exact (C9_rolling_pnl_window [1, 2, 3, 4, 5] 6 (by decide)).1

/-- C10: the per-tick trading body runs exactly when both mids are present
and nonzero: when the guard fails — a missing mid or a mid equal to zero —
the tick leaves the whole loop state unchanged, and when it holds, the spot
mid that divides the basis formula is nonzero. -/
theorem C10_tick_guard_skip :
    ∀ (cfg : Config) (expPow sqrtFn : ℚ → ℚ) (sb pb : LiveBook)
      (st : LoopState) (now_ts : ℚ),
      (tick_guard sb.mid pb.mid = false →
        tick cfg expPow sqrtFn sb pb st now_ts = st) ∧
      (tick_guard sb.mid pb.mid = true ↔
        ∃ sv pv, sb.mid = some sv ∧ pb.mid = some pv ∧ sv ≠ 0 ∧ pv ≠ 0) := by
  intro cfg expPow sqrtFn sb pb st now_ts
  constructor
  · intro h
    simp [tick, h]
  · cases hs : sb.mid with
    | none =>
      cases hp : pb.mid with
      | none => simp [tick_guard]
      | some pv => simp [tick_guard]
    | some sv =>
      cases hp : pb.mid with
      | none => simp [tick_guard]
      | some pv => simp [tick_guard]

end SpotPerp
